import Mathlib

/-!
Shallow embedding of the iterator-based XML tokenizer (`mod.ts`).

JavaScript strings are sequences of UTF-16 code units; we model them as
`List Nat`.  `Parser.write` pushes the code units of its argument
(`data.split('').map(c => c.charCodeAt(0))`), so a code unit — not a code
point — is the unit of queue consumption.  All parser-internal string
buffers (tag names, text accumulators, attribute values, ...) are likewise
`List Nat`; `s += String.fromCharCode(c)` becomes `s ++ [c]`.
-/

deriving instance DecidableEq for Except

namespace Xml

/-- ASCII helper: the UTF-16 code units of a Lean string (all inputs used in
the development are ASCII, for which code units and code points agree). -/
def jstr (s : String) : List Nat :=
  s.data.map Char.toNat

/-- Attribute mapping, in JavaScript object insertion order. -/
abbrev Attrs : Type := List (List Nat × List Nat)

/-- `{...attrs, [k]: v}`: replace the value in place if the key exists
(JavaScript keeps the original insertion position), else append. -/
def setAttr (attrs : Attrs) (k v : List Nat) : Attrs :=
  if attrs.any (fun p => p.1 = k) then
    attrs.map (fun p => if p.1 = k then (k, v) else p)
  else
    attrs ++ [(k, v)]

/-- The emitted events (`Parser.Node` in the source). -/
inductive Node where
  | text (text : List Nat)
  | xmldecl (xmldecl : Attrs)
  | opentag (name : List Nat) (empty : Bool) (attributes : Attrs)
  | closetag (closetag : List Nat)
  | comment (comment : List Nat)
  | processinginstruction (name : List Nat) (text : List Nat)
  | cdata (cdata : List Nat)
deriving DecidableEq, Repr

/-- The errors thrown by the source, with their dynamic payloads. -/
inductive ParseError where
  | invalidTagNameStart (c : Nat)
  | invalidTagAttributeNameChar (c : Nat)
  | invalidAttributeValueStart (c : Nat)
  | unexpectedEscapeChar (c : Nat)
  | invalidXmlDeclChar (c : Nat)
  | invalidXmlDeclAttributeNameChar (c : Nat)
  | invalidCommentStartChar (c : Nat)
  | malformedCommentEnding (dashes : Nat)
  | invalidCommentChar (c : Nat)
  | invalidPIChar (c : Nat)
  | invalidCDataStart (prologue : List Nat)
  | invalidCDataChar (c : Nat)
  | writeAfterClose
  | unexpectedEndOfStream
deriving DecidableEq, Repr

/-- `ParseState`: the 19 state shapes of the source's discriminated union. -/
inductive ParseState where
  | text (text : List Nat)
  | tagName (tagName : List Nat)
  | tagEmpty (tagName : List Nat) (attributes : Attrs)
  | tag (tagName : List Nat) (attributes : Attrs)
  | tagAttributeName (tagName : List Nat) (attributes : Attrs) (attributeName : List Nat)
  | tagAttribute (tagName : List Nat) (attributes : Attrs) (attributeName : List Nat)
  | tagAttributeValue (tagName : List Nat) (attributes : Attrs) (attributeName : List Nat)
      (attributeValue : List Nat) (escaped : Bool) (quotationMark : Option Nat)
  | closingTagName (tagName : List Nat)
  | piName (name : List Nat)
  | pi (name : List Nat) (text : List Nat) (ending : Bool)
  | xmlDecl (attributes : Attrs)
  | xmlDeclAttributeName (attributes : Attrs) (attributeName : List Nat)
  | xmlDeclAttribute (attributes : Attrs) (attributeName : List Nat) (attributeValue : List Nat)
  | xmlDeclAttributeValue (attributes : Attrs) (attributeName : List Nat)
      (attributeValue : List Nat) (escaped : Bool) (quotationMark : Option Nat)
  | xmlDeclEnd (attributes : Attrs)
  | commentStart (dashes : Nat)
  | comment (text : List Nat) (dashes : Nat)
  | cdataStart (prologue : List Nat)
  | cdata (text : List Nat) (brackets : Nat)
deriving DecidableEq, Repr

/-- `isNameStartChar` (chained `||` of range tests, written as one
decidable disjunction). -/
def isNameStartChar (c : Nat) : Bool :=
  decide (c = 58 ∨ (65 ≤ c ∧ c ≤ 90) ∨ c = 95 ∨ (97 ≤ c ∧ c ≤ 122) ∨
    (0xc0 ≤ c ∧ c ≤ 0xd6) ∨ (0xd8 ≤ c ∧ c ≤ 0xf6) ∨ (0xf8 ≤ c ∧ c ≤ 0x2ff) ∨
    (0x370 ≤ c ∧ c ≤ 0x37d) ∨ (0x37f ≤ c ∧ c ≤ 0x1fff) ∨
    (0x200c ≤ c ∧ c ≤ 0x200d) ∨ (0x2070 ≤ c ∧ c ≤ 0x218f) ∨
    (0x2c00 ≤ c ∧ c ≤ 0x2fef) ∨ (0x3001 ≤ c ∧ c ≤ 0xd7ff) ∨
    (0xf900 ≤ c ∧ c ≤ 0xfdcf) ∨ (0xfdf0 ≤ c ∧ c ≤ 0xfffd) ∨
    (0x10000 ≤ c ∧ c ≤ 0xeffff))

/-- `isNameChar`. -/
def isNameChar (c : Nat) : Bool :=
  isNameStartChar c ||
    decide (c = 45 ∨ c = 46 ∨ (48 ≤ c ∧ c ≤ 57) ∨ c = 0xb7 ∨
      (0x300 ≤ c ∧ c ≤ 0x36f) ∨ (0x203f ≤ c ∧ c ≤ 0x2040))

/-- `isChar`. -/
def isChar (c : Nat) : Bool :=
  decide (c = 9 ∨ c = 0xa ∨ c = 0xd ∨ (0x20 ≤ c ∧ c ≤ 0xd7ff) ∨
    (0xe000 ≤ c ∧ c ≤ 0xfffd) ∨ (0x10000 ≤ c ∧ c ≤ 0x10ffff))

/-- `isWhiteSpace`. -/
def isWhiteSpace (c : Nat) : Bool :=
  decide (c = 0x20 ∨ c = 0x9 ∨ c = 0xd ∨ c = 0xa)

/-- `isQuotationMark`. -/
def isQuotationMark (c : Nat) : Bool :=
  decide (c = 34 ∨ c = 39)

/-- `escapeChar`: resolves a backslash escape or throws. -/
def escapeChar (c : Nat) : Except ParseError (List Nat) :=
  if c = 92 then .ok [92]
  else if c = 110 then .ok [10]
  else if c = 114 then .ok [13]
  else .error (.unexpectedEscapeChar c)

/-- ASCII `toLowerCase`, used only for the comparison with `'xml'`.
(JavaScript `toLowerCase` also folds some non-ASCII units, but none of
those fold to `x`, `m` or `l`, so the comparison against `"xml"` agrees.) -/
def jsLower (s : List Nat) : List Nat :=
  s.map (fun u => if 65 ≤ u ∧ u ≤ 90 then u + 32 else u)

/-- One step of the state machine: the body of the `switch` in
`Parser.next`, as a function of the strict flag, the current state and one
code unit.  Returns the successor state and the node emitted, if any
(`return { value, done: false }` in the source). -/
def step (strict : Bool) (st : ParseState) (c : Nat) :
    Except ParseError (ParseState × Option Node) :=
  match st with
  | .text t =>
    -- on `<`: flush accumulated text (if non-empty) and start a tag
    if c = 60 then
      .ok (.tagName [], if t = [] then none else some (.text t))
    else
      .ok (.text (t ++ [c]), none)
  | .tagName n =>
    if n = [] then
      if isNameStartChar c then .ok (.tagName (n ++ [c]), none)
      else if c = 47 then .ok (.closingTagName [], none)
      else if c = 63 then .ok (.piName [], none)
      else if c = 33 then .ok (.commentStart 0, none)
      else .error (.invalidTagNameStart c)
    else
      if isNameChar c then .ok (.tagName (n ++ [c]), none)
      else if isWhiteSpace c then .ok (.tag n [], none)
      else if c = 62 then .ok (.text [], some (.opentag n false []))
      else if c = 47 then .ok (.tagEmpty n [], none)
      else .ok (.tagName n, none) -- no else branch in the source: ignored
  | .tag n attrs =>
    if c = 62 then .ok (.text [], some (.opentag n false attrs))
    else if isWhiteSpace c then .ok (.tag n attrs, none)
    else if isNameStartChar c then .ok (.tagAttributeName n attrs [c], none)
    else if c = 47 then .ok (.tagEmpty n [], none) -- source passes `attributes: {}`
    else .error (.invalidTagAttributeNameChar c)
  | .tagEmpty n attrs =>
    if c = 62 then .ok (.text [], some (.opentag n true attrs))
    else .ok (.tagEmpty n attrs, none) -- ignored
  | .tagAttribute n attrs an =>
    if isWhiteSpace c then .ok (.tagAttribute n attrs an, none)
    else if c = 61 then .ok (.tagAttributeValue n attrs an [] false none, none)
    else .ok (.tagAttribute n attrs an, none) -- ignored
  | .tagAttributeName n attrs an =>
    if isWhiteSpace c then .ok (.tagAttribute n attrs an, none)
    else if c = 61 then .ok (.tagAttributeValue n attrs an [] false none, none)
    else if isNameChar c then .ok (.tagAttributeName n attrs (an ++ [c]), none)
    else .error (.invalidTagAttributeNameChar c)
  | .tagAttributeValue n attrs an av esc q =>
    if av ≠ [] ∨ q.isSome then
      if esc then
        match escapeChar c with
        | .error e => .error e
        | .ok s => .ok (.tagAttributeValue n attrs an (av ++ s) false q, none)
      else if c = 92 ∧ q.isSome then
        .ok (.tagAttributeValue n attrs an av true q, none)
      else if (match q with | some qm => c == qm | none => isWhiteSpace c) then
        .ok (.tag n (setAttr attrs an av), none)
      else
        .ok (.tagAttributeValue n attrs an (av ++ [c]) esc q, none)
    else
      if isWhiteSpace c then
        .ok (.tagAttributeValue n attrs an av esc q, none)
      else if (if strict then c = 39 else isQuotationMark c = true) then
        .ok (.tagAttributeValue n attrs an av esc (some c), none)
      else if strict then
        .error (.invalidAttributeValueStart c)
      else
        .ok (.tagAttributeValue n attrs an (av ++ [c]) esc q, none)
  | .closingTagName n =>
    if n = [] then
      if isNameStartChar c then .ok (.closingTagName (n ++ [c]), none)
      else .error (.invalidTagNameStart c)
    else
      if isNameChar c then .ok (.closingTagName (n ++ [c]), none)
      else if isWhiteSpace c then .ok (.closingTagName n, none)
      else if c = 62 then .ok (.text [], some (.closetag n))
      else .ok (.closingTagName n, none) -- no else branch in the source: ignored
  | .piName n =>
    if isWhiteSpace c then
      if jsLower n = jstr "xml" then .ok (.xmlDecl [], none)
      else .ok (.pi n [] false, none)
    else
      .ok (.piName (n ++ [c]), none)
  | .pi n t ending =>
    if c = 63 then
      if ending then .ok (.pi n (t ++ [63]) true, none)
      else .ok (.pi n t true, none)
    else if ending ∧ c = 62 then
      .ok (.text [], some (.processinginstruction n t))
    else if strict ∧ isChar c = false then
      .error (.invalidPIChar c)
    else
      .ok (.pi n ((if ending then t ++ [63] else t) ++ [c]) false, none)
  | .xmlDecl attrs =>
    if isWhiteSpace c then .ok (.xmlDecl attrs, none)
    else if c = 63 then .ok (.xmlDeclEnd attrs, none)
    else if isNameStartChar c then .ok (.xmlDeclAttributeName attrs [c], none)
    else .error (.invalidXmlDeclChar c)
  | .xmlDeclAttributeName attrs an =>
    if isWhiteSpace c then .ok (.xmlDeclAttribute attrs an [], none)
    else if c = 61 then .ok (.xmlDeclAttributeValue attrs an [] false none, none)
    else if isNameChar c then .ok (.xmlDeclAttributeName attrs (an ++ [c]), none)
    else .error (.invalidXmlDeclAttributeNameChar c)
  | .xmlDeclAttribute attrs an av =>
    if isWhiteSpace c then .ok (.xmlDeclAttribute attrs an av, none)
    else if c = 61 then .ok (.xmlDeclAttributeValue attrs an [] false none, none)
    else .ok (.xmlDeclAttribute attrs an av, none) -- ignored
  | .xmlDeclAttributeValue attrs an av esc q =>
    if av ≠ [] ∨ q.isSome then
      if esc then
        match escapeChar c with
        | .error e => .error e
        | .ok s => .ok (.xmlDeclAttributeValue attrs an (av ++ s) false q, none)
      else if c = 92 ∧ q.isSome then
        .ok (.xmlDeclAttributeValue attrs an av true q, none)
      else if (match q with | some qm => c == qm | none => isWhiteSpace c) then
        .ok (.xmlDecl (setAttr attrs an av), none)
      else
        .ok (.xmlDeclAttributeValue attrs an (av ++ [c]) esc q, none)
    else
      if isWhiteSpace c then
        .ok (.xmlDeclAttributeValue attrs an av esc q, none)
      else if (if strict then c = 39 else isQuotationMark c = true) then
        .ok (.xmlDeclAttributeValue attrs an av esc (some c), none)
      else if strict then
        .error (.invalidAttributeValueStart c)
      else
        .ok (.xmlDeclAttributeValue attrs an (av ++ [c]) esc q, none)
  | .xmlDeclEnd attrs =>
    if c = 62 then .ok (.text [], some (.xmldecl attrs))
    else .ok (.xmlDeclEnd attrs, none) -- ignored
  | .commentStart dashes =>
    if dashes = 0 ∧ c = 91 then .ok (.cdataStart [], none)
    else if c = 45 then
      if 2 ≤ dashes + 1 then .ok (.comment [] 0, none)
      else .ok (.commentStart (dashes + 1), none)
    else .error (.invalidCommentStartChar c)
  | .comment t dashes =>
    if c = 45 then
      if strict ∧ t = [] then .error (.invalidCommentStartChar c)
      else .ok (.comment t (dashes + 1), none)
    else if c = 62 ∧ 2 ≤ dashes then
      if strict ∧ 2 < dashes then .error (.malformedCommentEnding dashes)
      else .ok (.text [], some (.comment (t ++ List.replicate (dashes - 2) 45)))
    -- the source's `else if (strict && c === Dash)` branch is unreachable
    else if strict ∧ isChar c = false then
      .error (.invalidCommentChar c)
    else
      .ok (.comment (t ++ List.replicate dashes 45 ++ [c]) 0, none)
  | .cdataStart pro =>
    -- prologue += char; must stay a prefix of 'CDATA['
    if pro ++ [c] = jstr "CDATA[" then
      .ok (.cdata [] 0, none)
    else if ¬ (jstr "CDATA[").take (pro ++ [c]).length = pro ++ [c] then
      .error (.invalidCDataStart (pro ++ [c]))
    else
      .ok (.cdataStart (pro ++ [c]), none)
  | .cdata t brackets =>
    if c = 93 then .ok (.cdata t (brackets + 1), none)
    else if 2 ≤ brackets ∧ c = 62 then
      .ok (.text [], some (.cdata (t ++ List.replicate (brackets - 2) 93)))
    else if strict ∧ isChar c = false then
      .error (.invalidCDataChar c)
    else
      .ok (.cdata (t ++ List.replicate brackets 93 ++ [c]) 0, none)

/-- The mutable instance fields of `class Parser`: current parse state, the
queue of pending code units, the closed flag, and the immutable strict
flag. -/
structure Parser where
  strict : Bool
  state : ParseState
  buffer : List Nat
  closed : Bool
deriving DecidableEq, Repr

/-- A freshly constructed parser: initial `Text` state with empty
accumulator, empty queue, not closed. -/
def mkParser (strict : Bool) : Parser :=
  ⟨strict, .text [], [], false⟩

/-- `Parser.write`: fails when closed, else appends the code units of the
argument to the queue. -/
def write (p : Parser) (data : List Nat) : Except ParseError Parser :=
  if p.closed then .error .writeAfterClose
  else .ok { p with buffer := p.buffer ++ data }

/-- `Parser.close` (without the optional final chunk): permanently sets the
closed flag. -/
def close (p : Parser) : Parser :=
  { p with closed := true }

/-- The queue-draining loop of `Parser.next`: shift one code unit at a time
and run `step` until the queue is empty, an error is thrown, or a node is
returned (the unread remainder of the queue is returned alongside it). -/
def nextLoop (strict : Bool) (st : ParseState) :
    List Nat → Except ParseError (ParseState × List Nat × Option Node)
  | [] => .ok (st, [], none)
  | c :: rest =>
    match step strict st c with
    | .error e => .error e
    | .ok (st', some node) => .ok (st', rest, some node)
    | .ok (st', none) => nextLoop strict st' rest

/-- `Parser.next`: drain the queue; if it empties without a node, apply the
end-of-queue rules (flush a pending non-empty `Text` accumulator once
closed, fail mid-construct once closed, otherwise signal exhaustion).
`none` in the result is the `{ done: true }` exhaustion signal. -/
def next (p : Parser) : Except ParseError (Parser × Option Node) :=
  match nextLoop p.strict p.state p.buffer with
  | .error e => .error e
  | .ok (st', rest, some node) => .ok ({ p with state := st', buffer := rest }, some node)
  | .ok (st', rest, none) =>
    if p.closed then
      match st' with
      | .text t =>
        if t = [] then .ok ({ p with state := st', buffer := rest }, none)
        else .ok ({ p with state := .text [], buffer := rest }, some (.text t))
      | _ => .error .unexpectedEndOfStream
    else
      .ok ({ p with state := st', buffer := rest }, none)

/-- Fuelled driver for repeated `next` calls: collects nodes until `next`
signals exhaustion or fails.  `p.buffer.length + 2` fuel always suffices,
since every node-producing call except the final `Text` flush consumes at
least one queued unit. -/
def drainAux (fuel : Nat) (p : Parser) : Except ParseError (List Node) :=
  match fuel with
  | 0 => .ok []
  | fuel + 1 =>
    match next p with
    | .error e => .error e
    | .ok (_, none) => .ok []
    | .ok (p', some node) =>
      match drainAux fuel p' with
      | .error e => .error e
      | .ok nodes => .ok (node :: nodes)

/-- Drain all currently available nodes (iterating the parser). -/
def drain (p : Parser) : Except ParseError (List Node) :=
  drainAux (p.buffer.length + 2) p

/-- Deliver one chunk to a given parser instance, close, and drain. -/
def runFrom (p : Parser) (data : List Nat) : Except ParseError (List Node) :=
  match write p data with
  | .error e => .error e
  | .ok p' => drain (close p')

/-- Whole-string entry point (`parse`): single `write`, `close`, drain. -/
def runUnits (strict : Bool) (data : List Nat) : Except ParseError (List Node) :=
  runFrom (mkParser strict) data

/-- Successive `write` calls. -/
def writeAll (p : Parser) : List (List Nat) → Except ParseError Parser
  | [] => .ok p
  | d :: ds =>
    match write p d with
    | .error e => .error e
    | .ok p' => writeAll p' ds

/-- Chunked delivery: successive `write` calls, then `close`, then drain. -/
def runChunks (strict : Bool) (chunks : List (List Nat)) : Except ParseError (List Node) :=
  match writeAll (mkParser strict) chunks with
  | .error e => .error e
  | .ok p => drain (close p)

/-- UTF-16 encoding of one code point, as produced by a JavaScript string
literal: code points beyond U+FFFF become a surrogate pair. -/
def utf16Encode (cp : Nat) : List Nat :=
  if cp < 0x10000 then [cp]
  else [0xd800 + (cp - 0x10000) / 0x400, 0xdc00 + (cp - 0x10000) % 0x400]

/-- Successive `write` calls on an open parser just append the
concatenation of the chunks to the queue. -/
theorem writeAll_append (chunks : List (List Nat)) (p : Parser) (h : p.closed = false) :
    writeAll p chunks = .ok { p with buffer := p.buffer ++ chunks.flatten } := by
  induction chunks generalizing p with
  | nil => simp [writeAll]
  | cons d ds ih =>
    simp only [writeAll, write, h, Bool.false_eq_true, if_false, List.flatten_cons]
    rw [ih _ (by simp [h])]
    simp [List.append_assoc]

/-- C1: delivering any splitting of an input into two or more chunks via
successive `write` calls, then `close`, then draining with `next`, yields
exactly the same node sequence (and the same error outcome) as delivering
the whole input in a single `write` followed by `close`. -/
theorem chunked_delivery_eq (strict : Bool) (chunks : List (List Nat))
    (_h : 2 ≤ chunks.length) :
    runChunks strict chunks = runUnits strict chunks.flatten := by
  unfold runChunks runUnits runFrom
  rw [writeAll_append chunks (mkParser strict) rfl]
  simp [write, mkParser]

/-- Witness for C1 at the concrete splitting `["<a", ">"]`. -/
theorem chunked_delivery_eq_witness :
    runChunks false [jstr "<a", jstr ">"] =
      runUnits false ([jstr "<a", jstr ">"] : List (List Nat)).flatten :=
  chunked_delivery_eq false [jstr "<a", jstr ">"] (by decide)

/-- C2 counterexample: in permissive mode `<a b=unquoted>` does not
produce `OpenTag(a, \x7bb: "unquoted"\x7d)`. -/
theorem unquoted_attr_claim_cex :
    runUnits false (jstr "<a b=unquoted>") ≠
      .ok [.opentag (jstr "a") false [(jstr "b", jstr "unquoted")]] := by
  decide

/-- C2 amended: in permissive mode the `>` of `<a b=unquoted>` is absorbed
into the unquoted attribute value (unquoted values terminate only on
whitespace), so no node is produced and, the input having been closed
mid-construct, draining fails with the unexpected-end-of-stream error; in
strict mode the same input fails with the invalid-attribute-value-starting-
character error at `u`. -/
theorem unquoted_attr_behavior :
    runUnits false (jstr "<a b=unquoted>") = .error .unexpectedEndOfStream ∧
    runUnits true (jstr "<a b=unquoted>") = .error (.invalidAttributeValueStart 117) := by
  decide

/-- C3 counterexample: `<a b='c'/>` emits an OpenTag with an empty
attribute mapping, not \x7bb: "c"\x7d. -/
theorem tag_empty_drops_attrs_cex :
    runUnits false (jstr "<a b='c'/>") = .ok [.opentag (jstr "a") true []] ∧
    runUnits false (jstr "<a b='c'/>") ≠
      .ok [.opentag (jstr "a") true [(jstr "b", jstr "c")]] := by
  decide

/-- C3 amended: the OpenTag node emitted when TagEmpty sees `>` carries
`empty = true` and whatever attribute mapping the TagEmpty state holds, but
the transition from Tag to TagEmpty on `/` discards the attributes
accumulated so far (the source passes a fresh empty mapping), so for a
self-closing tag with attributes the emitted node's mapping is empty. -/
theorem tagEmpty_open_tag (strict : Bool) (n : List Nat) (attrs attrs2 : Attrs) :
    step strict (.tag n attrs) 47 = .ok (.tagEmpty n [], none) ∧
    step strict (.tagEmpty n attrs2) 62 = .ok (.text [], some (.opentag n true attrs2)) :=
  ⟨rfl, rfl⟩

/-- C4: when the queue empties without producing a node, `next` flushes a
non-empty Text accumulator as a final Text node (resetting it) if the
instance is closed, fails with the unexpected-end-of-stream error if it is
closed in any state other than Text, and otherwise (not closed, or closed
in Text with an empty accumulator) signals exhaustion without error. -/
theorem next_end_of_queue (p : Parser) (st' : ParseState)
    (h : nextLoop p.strict p.state p.buffer = .ok (st', [], none)) :
    (∀ t, st' = .text t → t ≠ [] → p.closed = true →
      next p = .ok ({ p with state := .text [], buffer := [] }, some (.text t))) ∧
    ((∀ t, st' ≠ .text t) → p.closed = true →
      next p = .error .unexpectedEndOfStream) ∧
    (p.closed = false ∨ st' = .text [] →
      next p = .ok ({ p with state := st', buffer := [] }, none)) := by
  refine ⟨?_, ?_, ?_⟩
  · rintro t rfl ht hc
    unfold next
    rw [h]
    simp [hc, ht]
  · intro hne hc
    unfold next
    rw [h]
    cases st'
    case text t => exact absurd rfl (hne t)
    all_goals simp [hc]
  · intro hcase
    unfold next
    rw [h]
    rcases hcase with hc | rfl
    · simp [hc]
    · by_cases hc : p.closed <;> simp [hc]

/-- Witness for C4: a closed parser stuck in `Text "x"` with an empty
queue flushes the final Text node. -/
theorem next_end_of_queue_witness :
    next ⟨true, .text (jstr "x"), [], true⟩ =
      .ok (⟨true, .text [], [], true⟩, some (.text (jstr "x"))) :=
  (next_end_of_queue ⟨true, .text (jstr "x"), [], true⟩ (.text (jstr "x")) rfl).1
    (jstr "x") rfl (by decide) rfl

/-- C5: in the Comment state, `>` with at least two pending dashes emits a
Comment node whose body is the accumulated text plus `dashes - 2` literal
dashes, except that in strict mode more than two pending dashes fail with
the malformed-comment-ending error; and in strict mode a `-` arriving
while the accumulated text is empty fails with the
invalid-comment-starting-character error, whatever the pending dash count
`e` — in particular at `e = 0`, the first body character after `<!--`. -/
theorem comment_close_rules (strict : Bool) (t : List Nat) (d e : Nat) (h2 : 2 ≤ d) :
    (step strict (.comment t d) 62 =
      if strict = true ∧ 2 < d then .error (.malformedCommentEnding d)
      else .ok (.text [], some (.comment (t ++ List.replicate (d - 2) 45)))) ∧
    step true (.comment [] e) 45 = .error (.invalidCommentStartChar 45) := by
  constructor
  · simp only [step]
    rw [if_neg (by omega), if_pos (by exact ⟨by trivial, h2⟩)]
  · rfl

/-- Witness for C5 at `strict = true`: `>` after text `"a"` with three
pending dashes, and `-` as the first body character (zero pending
dashes, empty text). -/
theorem comment_close_rules_witness :
    (step true (.comment (jstr "a") 3) 62 = .error (.malformedCommentEnding 3)) ∧
    step true (.comment [] 0) 45 = .error (.invalidCommentStartChar 45) :=
  comment_close_rules true (jstr "a") 3 0 (by decide)

/-- C6 counterexample: strict mode does not reject `<!--a--b-->`; it
emits the Comment node with body `a--b`. -/
theorem strict_embedded_dashes_cex :
    runUnits true (jstr "<!--a--b-->") = .ok [.comment (jstr "a--b")] := by
  decide

/-- C6 amended: both strict and permissive mode accept `<!--a--b-->` and
emit a single Comment node with body `a--b`: strict mode rejects a `-`
mid-comment only while the accumulated text is still empty, and here the
body starts with `a`, so the embedded dashes are flushed as literal text
in both modes. -/
theorem embedded_dashes_both_modes :
    runUnits true (jstr "<!--a--b-->") = .ok [.comment (jstr "a--b")] ∧
    runUnits false (jstr "<!--a--b-->") = .ok [.comment (jstr "a--b")] := by
  decide

/-- C7 counterexample: `<a&>` parses without error in both modes — the
`&` inside the tag name is silently dropped and OpenTag `a` is emitted,
rather than failing with an invalid-name-character error. -/
theorem tagName_invalid_char_cex :
    runUnits true (jstr "<a&>") = .ok [.opentag (jstr "a") false []] ∧
    runUnits false (jstr "<a&>") = .ok [.opentag (jstr "a") false []] := by
  decide

/-- C7 amended: while accumulating a tag name (at least one character
seen), a character that is not a name character, not whitespace, not `>`
and not `/` is silently ignored, leaving the state unchanged (the TagName
case of the source has no failing fallthrough branch; the
invalid-name-character error exists only for attribute names). -/
theorem tagName_ignores_invalid (strict : Bool) (n : List Nat) (c : Nat)
    (hn : n ≠ []) (h1 : isNameChar c = false) (h2 : isWhiteSpace c = false)
    (h3 : c ≠ 62) (h4 : c ≠ 47) :
    step strict (.tagName n) c = .ok (.tagName n, none) := by
  simp only [step]
  rw [if_neg hn, if_neg (by simp [h1]), if_neg (by simp [h2]), if_neg h3, if_neg h4]

/-- Witness for C7: `&` (code 38) after tag name `a`. -/
theorem tagName_ignores_invalid_witness :
    step false (.tagName (jstr "a")) 38 = .ok (.tagName (jstr "a"), none) :=
  tagName_ignores_invalid false (jstr "a") 38 (by decide) (by decide) (by decide)
    (by decide) (by decide)

/-- C9: two independently constructed parser instances with the same
strict flag, each given the same complete input via write/close and
drained with next, produce identical node sequences and identical error
outcomes — instances share no state. -/
theorem independent_instances_eq (strict : Bool) (input : List Nat) (p q : Parser)
    (hp : p = mkParser strict) (hq : q = mkParser strict) :
    runFrom p input = runFrom q input := by
  subst hp
  subst hq
  rfl

/-- Witness for C9 at input `<a/>`. -/
theorem independent_instances_eq_witness :
    runFrom (mkParser false) (jstr "<a/>") = runFrom (mkParser false) (jstr "<a/>") :=
  independent_instances_eq false (jstr "<a/>") (mkParser false) (mkParser false) rfl rfl

/-- C10: in the ProcessingInstructionName state every non-whitespace
character — `?` and `>` included — is appended to the target name, so the
complete input `<?pi?>` never leaves that state, emits no node, and after
close the next pull fails with the unexpected-end-of-stream error. -/
theorem piName_swallows_all (strict : Bool) (n : List Nat) (c : Nat)
    (hc : isWhiteSpace c = false) :
    step strict (.piName n) c = .ok (.piName (n ++ [c]), none) ∧
    runUnits strict (jstr "<?pi?>") = .error .unexpectedEndOfStream := by
  constructor
  · simp only [step]
    rw [if_neg (by simp [hc])]
  · cases strict <;> decide

/-- Witness for C10: the `?` (code 63) is appended to the target name. -/
theorem piName_swallows_all_witness :
    step false (.piName []) 63 = .ok (.piName [63], none) ∧
    runUnits false (jstr "<?pi?>") = .error .unexpectedEndOfStream :=
  piName_swallows_all false [] 63 (by decide)

/-- If the first `next` call fails, draining fails with the same error. -/
theorem drain_of_next_error (p : Parser) (e : ParseError) (h : next p = .error e) :
    drain p = .error e := by
  show drainAux (p.buffer.length + 1 + 1) p = .error e
  simp only [drainAux]
  rw [h]

/-- `<` in the initial state starts a tag name without emitting a node. -/
theorem step_text_open : step false (.text []) 60 = .ok (.tagName [], none) :=
  rfl

/-- A queue slot that is no name-start character and none of `/`, `?`, `!`
fails tag-name recognition. -/
theorem step_tagName_bad_start (u : Nat) (hu : isNameStartChar u = false)
    (h47 : ¬(u = 47)) (h63 : ¬(u = 63)) (h33 : ¬(u = 33)) :
    step false (.tagName []) u = .error (.invalidTagNameStart u) := by
  simp only [step, if_true]
  rw [if_neg (by simp [hu]), if_neg h47, if_neg h63, if_neg h33]

/-- Draining `<` followed by two code units whose first is no
name-start character (and none of `/`, `?`, `!`) fails. -/
theorem run_bad_tag_start (u v : Nat) (hu : isNameStartChar u = false)
    (h47 : ¬(u = 47)) (h63 : ¬(u = 63)) (h33 : ¬(u = 33)) :
    runUnits false (60 :: [u, v]) = .error (.invalidTagNameStart u) := by
  have hloop : nextLoop false (.text []) [60, u, v] = .error (.invalidTagNameStart u) := by
    simp only [nextLoop, step_text_open, step_tagName_bad_start u hu h47 h63 h33]
  have hnext : next ⟨false, .text [], [60, u, v], true⟩ =
      .error (.invalidTagNameStart u) := by
    simp only [next]
    rw [hloop]
  unfold runUnits runFrom
  rw [show write (mkParser false) (60 :: [u, v]) =
    .ok ⟨false, .text [], [60, u, v], false⟩ from rfl]
  exact drain_of_next_error _ _ hnext

/-- C8: every code point in U+10000–U+EFFFF satisfies `isNameStartChar`,
but a JavaScript string delivers it as a surrogate pair of two UTF-16 code
units, each its own queue slot; the high surrogate fails
`isNameStartChar`, so writing `<` followed by such a character and
draining fails with the invalid-tag-name-starting-character error instead
of starting a tag name.  The supplementary-range disjunct of
`isNameStartChar` is unreachable from `write`. -/
theorem supplementary_range_dead (c : Nat) (h1 : 0x10000 ≤ c) (h2 : c ≤ 0xeffff) :
    isNameStartChar c = true ∧
    utf16Encode c = [0xd800 + (c - 0x10000) / 0x400, 0xdc00 + (c - 0x10000) % 0x400] ∧
    isNameStartChar (0xd800 + (c - 0x10000) / 0x400) = false ∧
    runUnits false (60 :: utf16Encode c) =
      .error (.invalidTagNameStart (0xd800 + (c - 0x10000) / 0x400)) := by
  have hhi : isNameStartChar (0xd800 + (c - 0x10000) / 0x400) = false := by
    simp only [isNameStartChar, decide_eq_false_iff_not]
    omega
  have hutf : utf16Encode c =
      [0xd800 + (c - 0x10000) / 0x400, 0xdc00 + (c - 0x10000) % 0x400] := by
    rw [utf16Encode, if_neg (by omega)]
  refine ⟨?_, hutf, hhi, ?_⟩
  · simp only [isNameStartChar, decide_eq_true_eq]
    omega
  · rw [hutf]
    exact run_bad_tag_start _ _ hhi (by omega) (by omega) (by omega)

/-- Witness for C8 at U+10000, whose surrogate pair is (55296, 56320). -/
theorem supplementary_range_dead_witness :
    isNameStartChar 0x10000 = true ∧
    utf16Encode 0x10000 = [0xd800, 0xdc00] ∧
    isNameStartChar 0xd800 = false ∧
    runUnits false (60 :: utf16Encode 0x10000) =
      .error (.invalidTagNameStart 0xd800) :=
  supplementary_range_dead 0x10000 (by decide) (by decide)

end Xml
